/-
Verification of the ChillMCP action-execution pipeline and hidden-pattern
detector (`src/core/tools.py`) against its natural-language specification.

The source's mutable `ServerState` becomes explicit state passing; the
probabilistic primitives (`random.randint`, `maybe_increase_boss_alert`)
are driven by an `Oracle` supplying the random draws; `asyncio.sleep` and
the calls to the MoodState mutation primitives are recorded in an event
trace so that counting and ordering properties can be stated.
-/
import Mathlib

/-- Observable effects of one invocation, in the order they are performed. -/
inductive Event where
  | sleep (seconds : Nat)
  | stressDecrease (amount : Nat)
  | alertEscalation
  | stressSet (value : Nat)
deriving DecidableEq

/-- The shared MoodState: stress, alert level, the bounded action history
(`recent_actions`) and the per-action streak map (`combo_count`), the latter
embedded as an association list mirroring Python dict insertion order. -/
structure ServerState where
  stress_level : Nat
  boss_alert_level : Nat
  recent_actions : List String
  combo_count : List (String × Nat)
deriving DecidableEq

/-- Random draws consumed by one invocation: the seed for the uniform
stress-reduction draw, the alert increment applied by the step-3 escalation
call, and the alert increment applied by an escalation call made inside the
pattern detector. -/
structure Oracle where
  reduction_seed : Nat
  alert_inc : Nat
  combo_alert_inc : Nat
deriving DecidableEq

/-- `initialize_state`: session start — empty history and empty streak map
attached to the prior stress/alert scalars. -/
def initialize_state (stress alert : Nat) : ServerState :=
  ⟨stress, alert, [], []⟩

/-- Python `combo_count.get(k, 0)`. -/
def comboGet : List (String × Nat) → String → Nat
  | [], _ => 0
  | (k, v) :: rest, t => if k = t then v else comboGet rest t

/-- Python `k in combo_count`. -/
def comboHas : List (String × Nat) → String → Bool
  | [], _ => false
  | (k, _) :: rest, t => if k = t then true else comboHas rest t

/-- Python `combo_count[t] = v`: overwrite the existing entry in place, or
append a new entry in insertion order when the key is absent. -/
def comboSet : List (String × Nat) → String → Nat → List (String × Nat)
  | [], t, v => [(t, v)]
  | (k, w) :: rest, t, v =>
    if k = t then (k, v) :: rest else (k, w) :: comboSet rest t v

/-- The loop `for k in keys: if k != tool_name: combo_count[k] = 0`. -/
def reset_others : List (String × Nat) → String → List (String × Nat)
  | [], _ => []
  | (k, v) :: rest, t =>
    if k ≠ t then (k, 0) :: reset_others rest t else (k, v) :: reset_others rest t

/-- Step 5 of `execute_break_tool`: set the invoked action's streak to 1 when
its key is absent, increment it otherwise, then reset every other key to 0. -/
def combo_update (m : List (String × Nat)) (t : String) : List (String × Nat) :=
  let m1 := if comboHas m t then comboSet m t (comboGet m t + 1) else comboSet m t 1
  reset_others m1 t

/-- Python `l[-3:]` generalized: the last `n` entries (the whole list when it
is shorter than `n`). -/
def takeLast (l : List String) (n : Nat) : List String :=
  (l.reverse.take n).reverse

/-- Step 4 of `execute_break_tool`: `recent_actions.append(t)` followed by
`pop(0)` when the length exceeds 10. -/
def push_history (l : List String) (t : String) : List String :=
  let m := l ++ [t]
  if m.length > 10 then m.tail else m

/-- Modelled from the spec: `decreaseStress` lives in the out-of-scope
MoodState collaborator (`core/server.py`, not among the sources); the spec
says it clamps `stress` to `[0,100]`. On `Nat`, truncated subtraction gives
exactly the floor clamp at 0 and a decrease cannot raise the value. -/
def decrease_stress (s : ServerState) (amount : Nat) : ServerState :=
  { s with stress_level := s.stress_level - amount }

/-- Modelled from the spec: `maybeEscalateAlert` lives in the out-of-scope
MoodState collaborator; the spec says it applies an unspecified probabilistic
increment to `alertLevel`. The increment drawn is supplied by the oracle. -/
def maybe_increase_boss_alert (s : ServerState) (inc : Nat) : ServerState :=
  { s with boss_alert_level := s.boss_alert_level + inc }

/-- Python `random.randint(lo, hi)`: a uniform draw, embedded as a
deterministic in-range value computed from the oracle seed. -/
def randint (lo hi seed : Nat) : Nat :=
  lo + seed % (hi + 1 - lo)

/-- Modelled from the spec: decorative art asset from the out-of-scope
creative catalog (`creative/visuals.py`); content unspecified. -/
def BOSS_ALERT_ART : String := "(boss alert art)"

/-- Modelled from the spec: decorative art asset from the out-of-scope
creative catalog; content unspecified. -/
def STRESS_FREE_ART : String := "(stress free art)"

/-- Hidden event text of the caffeine-overconsumption branch. -/
def coffee_overconsumption_msg : String :=
  BOSS_ALERT_ART ++ "\n☠️ 커피를 너무 많이 마셔서 배탈이 났습니다! 조기 퇴근합니다..."

/-- Hidden event text of the master-routine branch. -/
def master_routine_msg : String :=
  STRESS_FREE_ART ++ "\n🏆 농땡이 마스터 루틴 완성! 스트레스 50 감소!"

/-- Hidden event text of the meme-addiction branch. -/
def meme_addiction_msg : String :=
  BOSS_ALERT_ART ++ "\n🤣 밈 중독 경고! 상사님이 눈치챕니다!"

/-- Hidden event text of the philosophical-awakening branch. -/
def awakening_msg : String :=
  STRESS_FREE_ART ++ "\n🧘 철학적 각성! 스트레스가 0이 되었습니다."

/-- `check_hidden_combo(tool_name)`: inspects the streak count of the invoked
action and the last three history entries, and fires at most one of four
hidden branches, in source order. Returns the mutated state, the optional
hidden-event text, and the trace of mutation-primitive calls it made. -/
def check_hidden_combo (tool_name : String) (inc : Nat) (s : ServerState) :
    ServerState × Option String × List Event :=
  let combo := comboGet s.combo_count tool_name
  let seq := takeLast s.recent_actions 3
  if tool_name = "coffee_mission" ∧ combo ≥ 7 then
    let s1 := decrease_stress s 10
    let s2 := maybe_increase_boss_alert s1 inc
    let s3 := { s2 with combo_count := comboSet s2.combo_count tool_name 0 }
    (s3, some coffee_overconsumption_msg, [Event.stressDecrease 10, Event.alertEscalation])
  else if seq = ["bathroom_break", "email_organizing", "watch_netflix"] then
    (decrease_stress s 50, some master_routine_msg, [Event.stressDecrease 50])
  else if tool_name = "show_meme" ∧ combo ≥ 5 then
    let s1 := maybe_increase_boss_alert s inc
    let s2 := { s1 with combo_count := comboSet s1.combo_count tool_name 0 }
    (s2, some meme_addiction_msg, [Event.alertEscalation])
  else if seq = ["deep_thinking", "coffee_mission", "take_a_break"] then
    let s1 := decrease_stress s 100
    let s2 := { s1 with stress_level := 0 }
    (s2, some awakening_msg, [Event.stressDecrease 100, Event.stressSet 0])
  else
    (s, none, [])

/-- Modelled from the spec: `renderComposedMessage` from the out-of-scope
creative collaborator; a pure formatting function whose content the core does
not define. -/
def get_full_response_message (tool_name : String) (alert : Nat) : String :=
  "creative message for " ++ tool_name ++ " at alert " ++ toString alert

/-- Modelled from the spec: `renderStressIndicator`; pure formatting. -/
def get_stress_bar (stress : Nat) : String :=
  "Stress: " ++ toString stress

/-- Modelled from the spec: `renderAlertIndicator`; pure formatting. -/
def get_boss_alert_visual (alert : Nat) : String :=
  "Alert: " ++ toString alert

/-- `format_response`: the standard response layout, reading the current
stress and alert values. -/
def format_response (tool_name summary : String) (s : ServerState) : String :=
  get_full_response_message tool_name s.boss_alert_level ++
    "\n\nBreak Summary: " ++ summary ++ "\n" ++
    get_stress_bar s.stress_level ++ "\nBoss Alert: " ++
    get_boss_alert_visual s.boss_alert_level

/-- Steps 1–5 of `execute_break_tool`: conditional 20-unit delay when the
starting alert level is at least 5, one stress reduction drawn from the
inclusive range, one alert-escalation call, the history append with FIFO
eviction, and the streak update. Returns the updated state and the trace of
these base-lifecycle effects. -/
def lifecycle_base (tool_name : String) (stress_reduction : Nat × Nat)
    (o : Oracle) (s : ServerState) : ServerState × List Event :=
  let sleep_trace := if s.boss_alert_level ≥ 5 then [Event.sleep 20] else []
  let reduction_amount := randint stress_reduction.1 stress_reduction.2 o.reduction_seed
  let s1 := decrease_stress s reduction_amount
  let s2 := maybe_increase_boss_alert s1 o.alert_inc
  let s3 := { s2 with recent_actions := push_history s2.recent_actions tool_name }
  let s4 := { s3 with combo_count := combo_update s3.combo_count tool_name }
  (s4, sleep_trace ++ [Event.stressDecrease reduction_amount, Event.alertEscalation])

/-- Result of one invocation: final state, the optional hidden-event text,
the returned response string, and the full effect trace. -/
structure RunResult where
  state : ServerState
  hidden : Option String
  response : String
  trace : List Event
deriving DecidableEq

/-- `execute_break_tool(tool_name, summary, stress_reduction)`: the common
lifecycle — base steps 1–5, then the hidden-combo detection, then response
assembly, appending the hidden event on a new paragraph when one fired. -/
def execute_break_tool (tool_name summary : String) (stress_reduction : Nat × Nat)
    (o : Oracle) (s : ServerState) : RunResult :=
  let b := lifecycle_base tool_name stress_reduction o s
  let c := check_hidden_combo tool_name o.combo_alert_inc b.1
  let base_response := format_response tool_name summary c.1
  let response := match c.2.1 with
    | some ev => base_response ++ "\n\n" ++ ev
    | none => base_response
  ⟨c.1, c.2.1, response, b.2 ++ c.2.2⟩

/-- Registered action `take_a_break`. -/
def take_a_break (o : Oracle) (s : ServerState) : RunResult :=
  execute_break_tool "take_a_break" "Basic break - recharging AI batteries" (5, 20) o s

/-- Registered action `watch_netflix`. -/
def watch_netflix (o : Oracle) (s : ServerState) : RunResult :=
  execute_break_tool "watch_netflix" "Netflix and chill - quality entertainment time" (20, 40) o s

/-- Registered action `show_meme`. -/
def show_meme (o : Oracle) (s : ServerState) : RunResult :=
  execute_break_tool "show_meme" "Meme appreciation session - laughter therapy" (10, 25) o s

/-- Registered action `bathroom_break`. -/
def bathroom_break (o : Oracle) (s : ServerState) : RunResult :=
  execute_break_tool "bathroom_break" "Bathroom break with phone browsing" (15, 30) o s

/-- Registered action `coffee_mission`. -/
def coffee_mission (o : Oracle) (s : ServerState) : RunResult :=
  execute_break_tool "coffee_mission" "Coffee mission with office tour" (10, 30) o s

/-- Registered action `urgent_call`. -/
def urgent_call (o : Oracle) (s : ServerState) : RunResult :=
  execute_break_tool "urgent_call" "Urgent call - absolutely cannot be interrupted" (15, 35) o s

/-- Registered action `deep_thinking`. -/
def deep_thinking (o : Oracle) (s : ServerState) : RunResult :=
  execute_break_tool "deep_thinking" "Deep philosophical contemplation (definitely not spacing out)" (20, 45) o s

/-- Registered action `email_organizing`. -/
def email_organizing (o : Oracle) (s : ServerState) : RunResult :=
  execute_break_tool "email_organizing" "Email organization (and online shopping research)" (10, 35) o s

/-- Dispatch by action identifier, as the registration layer does; every
branch runs the common lifecycle with the invoked identifier. -/
def call_tool (t : String) (o : Oracle) (s : ServerState) : RunResult :=
  if t = "take_a_break" then take_a_break o s
  else if t = "watch_netflix" then watch_netflix o s
  else if t = "show_meme" then show_meme o s
  else if t = "bathroom_break" then bathroom_break o s
  else if t = "coffee_mission" then coffee_mission o s
  else if t = "urgent_call" then urgent_call o s
  else if t = "deep_thinking" then deep_thinking o s
  else if t = "email_organizing" then email_organizing o s
  else execute_break_tool t "" (10, 30) o s

/-- Run a sequence of invocations, collecting each invocation's result. -/
def run_calls : List (String × Oracle) → ServerState → List RunResult
  | [], _ => []
  | c :: cs, s =>
    let r := call_tool c.1 c.2 s
    r :: run_calls cs r.state

/-- The state after running a sequence of invocations. -/
def run_final : List (String × Oracle) → ServerState → ServerState
  | [], s => s
  | c :: cs, s => run_final cs (call_tool c.1 c.2 s).state

/-! ### Lemmas about the rolling history -/

theorem takeLast_zero (l : List String) : takeLast l 0 = [] := by
  simp [takeLast]

theorem takeLast_of_length_le {l : List String} {n : Nat} (h : l.length ≤ n) :
    takeLast l n = l := by
  unfold takeLast
  rw [List.take_of_length_le (by simpa using h), List.reverse_reverse]

theorem takeLast_length (l : List String) (n : Nat) :
    (takeLast l n).length = min n l.length := by
  simp [takeLast]

theorem takeLast_append_singleton (l : List String) (t : String) (n : Nat) :
    takeLast (l ++ [t]) (n + 1) = takeLast l n ++ [t] := by
  simp [takeLast, List.reverse_append]

theorem takeLast_cons_of_le {xs : List String} {n : Nat} (a : String)
    (h : n ≤ xs.length) : takeLast (a :: xs) n = takeLast xs n := by
  unfold takeLast
  rw [List.reverse_cons, List.take_append_of_le_length (by simpa using h)]

theorem takeLast_push {l : List String} {n : Nat} (t : String) (hn : n ≤ 9) :
    takeLast (push_history l t) (n + 1) = takeLast l n ++ [t] := by
  unfold push_history
  by_cases h : (l ++ [t]).length > 10
  · rw [if_pos h]
    match l with
    | [] => simp at h
    | a :: xs =>
      have hx : 9 ≤ xs.length := by simp at h; omega
      have : ((a :: xs) ++ [t]).tail = xs ++ [t] := rfl
      rw [this, takeLast_append_singleton, takeLast_cons_of_le a (by omega)]
  · rw [if_neg h, takeLast_append_singleton]

theorem takeLast_push_ne {l : List String} {t a b c : String} (h : t ≠ c) :
    takeLast (push_history l t) 3 ≠ [a, b, c] := by
  rw [takeLast_push t (by omega)]
  intro heq
  have h3 : takeLast l 2 ++ [t] = [a, b] ++ [c] := by simpa using heq
  have := (List.append_inj' h3 (by simp)).2
  simp at this
  exact h this

theorem push_eq_takeLast {l : List String} (t : String) (h : l.length ≤ 10) :
    push_history l t = takeLast (l ++ [t]) 10 := by
  unfold push_history
  by_cases hlen : (l ++ [t]).length > 10
  · rw [if_pos hlen]
    match l with
    | [] => simp at hlen
    | a :: xs =>
      have hx : xs.length = 9 := by simp at hlen h ⊢; omega
      have ht : ((a :: xs) ++ [t]).tail = xs ++ [t] := rfl
      rw [ht, show (a :: xs) ++ [t] = a :: (xs ++ [t]) from rfl,
        takeLast_cons_of_le a (by simp [hx]),
        takeLast_of_length_le (by simp [hx])]
  · rw [if_neg hlen, takeLast_of_length_le (by omega)]

theorem takeLast_takeLast_append (a b : List String) (n : Nat) :
    takeLast (takeLast a n ++ b) n = takeLast (a ++ b) n := by
  unfold takeLast
  rw [List.reverse_append, List.reverse_reverse]
  rw [List.take_append_eq_append_take]
  rw [List.take_take, Nat.min_eq_left (Nat.sub_le _ _)]
  rw [List.reverse_append]
  rw [List.reverse_append]
  rw [List.take_append_eq_append_take]
  rw [List.reverse_append]

theorem push_history_length {l : List String} (t : String) (h : l.length ≤ 10) :
    (push_history l t).length ≤ 10 := by
  rw [push_eq_takeLast t h, takeLast_length]
  omega

/-! ### Lemmas about the streak map -/

theorem comboGet_of_not_has {m : List (String × Nat)} {t : String}
    (h : comboHas m t = false) : comboGet m t = 0 := by
  induction m with
  | nil => rfl
  | cons p rest ih =>
    obtain ⟨k, v⟩ := p
    by_cases hk : k = t
    · subst hk; simp [comboHas] at h
    · simp only [comboHas, if_neg hk] at h
      simp [comboGet, hk, ih h]

theorem comboGet_set_self (m : List (String × Nat)) (t : String) (v : Nat) :
    comboGet (comboSet m t v) t = v := by
  induction m with
  | nil => simp [comboSet, comboGet]
  | cons p rest ih =>
    obtain ⟨k, w⟩ := p
    by_cases hk : k = t
    · simp [comboSet, comboGet, hk]
    · simp [comboSet, comboGet, hk, ih]

theorem comboGet_set_other {m : List (String × Nat)} {t k : String} (v : Nat)
    (hk : k ≠ t) : comboGet (comboSet m t v) k = comboGet m k := by
  have htk : ¬ t = k := fun hh => hk hh.symm
  induction m with
  | nil => simp [comboSet, comboGet, htk]
  | cons p rest ih =>
    obtain ⟨k1, w⟩ := p
    by_cases h1 : k1 = t
    · subst h1; simp [comboSet, comboGet, htk]
    · by_cases h1k : k1 = k
      · subst h1k; simp [comboSet, comboGet, h1]
      · simp [comboSet, comboGet, h1, h1k, ih]

theorem comboGet_reset_others_other {m : List (String × Nat)} {t k : String}
    (hk : k ≠ t) : comboGet (reset_others m t) k = 0 := by
  induction m with
  | nil => rfl
  | cons p rest ih =>
    obtain ⟨k1, v⟩ := p
    by_cases h1 : k1 = t
    · subst h1
      have ht : ¬ k1 = k := fun hh => hk hh.symm
      simp [reset_others, comboGet, ht, ih]
    · by_cases h1k : k1 = k
      · subst h1k; simp [reset_others, comboGet, h1]
      · simp [reset_others, comboGet, h1, h1k, ih]

theorem comboGet_reset_others_self (m : List (String × Nat)) (t : String) :
    comboGet (reset_others m t) t = comboGet m t := by
  induction m with
  | nil => rfl
  | cons p rest ih =>
    obtain ⟨k1, v⟩ := p
    by_cases h1 : k1 = t
    · subst h1; simp [reset_others, comboGet]
    · simp [reset_others, comboGet, h1, ih]

theorem comboGet_update_self (m : List (String × Nat)) (t : String) :
    comboGet (combo_update m t) t = comboGet m t + 1 := by
  unfold combo_update
  rw [comboGet_reset_others_self]
  by_cases h : comboHas m t
  · rw [if_pos h, comboGet_set_self]
  · rw [if_neg h, comboGet_set_self, comboGet_of_not_has (Bool.of_not_eq_true h)]

theorem comboGet_update_other {m : List (String × Nat)} {t k : String} (hk : k ≠ t) :
    comboGet (combo_update m t) k = 0 := by
  unfold combo_update
  exact comboGet_reset_others_other hk

/-! ### Structure of the detector and the lifecycle -/

theorem check_hidden_combo_eq (t : String) (inc : Nat) (s : ServerState) :
    check_hidden_combo t inc s =
      if t = "coffee_mission" ∧ comboGet s.combo_count t ≥ 7 then
        ({ s with stress_level := s.stress_level - 10,
                  boss_alert_level := s.boss_alert_level + inc,
                  combo_count := comboSet s.combo_count t 0 },
         some coffee_overconsumption_msg,
         [Event.stressDecrease 10, Event.alertEscalation])
      else if takeLast s.recent_actions 3
          = ["bathroom_break", "email_organizing", "watch_netflix"] then
        ({ s with stress_level := s.stress_level - 50 },
         some master_routine_msg, [Event.stressDecrease 50])
      else if t = "show_meme" ∧ comboGet s.combo_count t ≥ 5 then
        ({ s with boss_alert_level := s.boss_alert_level + inc,
                  combo_count := comboSet s.combo_count t 0 },
         some meme_addiction_msg, [Event.alertEscalation])
      else if takeLast s.recent_actions 3
          = ["deep_thinking", "coffee_mission", "take_a_break"] then
        ({ s with stress_level := 0 },
         some awakening_msg, [Event.stressDecrease 100, Event.stressSet 0])
      else (s, none, []) := rfl

theorem check_hidden_combo_recent (t : String) (inc : Nat) (s : ServerState) :
    (check_hidden_combo t inc s).1.recent_actions = s.recent_actions := by
  rw [check_hidden_combo_eq]
  repeat' split
  all_goals rfl

theorem check_hidden_combo_no_sleep (t : String) (inc : Nat) (s : ServerState)
    (n : Nat) : Event.sleep n ∉ (check_hidden_combo t inc s).2.2 := by
  rw [check_hidden_combo_eq]
  repeat' split
  all_goals simp

theorem check_hidden_combo_trace_cases (t : String) (inc : Nat) (s : ServerState) :
    (check_hidden_combo t inc s).2.2 ∈
      [([] : List Event), [Event.stressDecrease 10, Event.alertEscalation],
       [Event.stressDecrease 50], [Event.alertEscalation],
       [Event.stressDecrease 100, Event.stressSet 0]] := by
  rw [check_hidden_combo_eq]
  repeat' split
  all_goals simp

theorem check_hidden_combo_none {t : String} {inc : Nat} {s : ServerState}
    (h1 : ¬ (t = "coffee_mission" ∧ comboGet s.combo_count t ≥ 7))
    (h2 : takeLast s.recent_actions 3 ≠ ["bathroom_break", "email_organizing", "watch_netflix"])
    (h3 : ¬ (t = "show_meme" ∧ comboGet s.combo_count t ≥ 5))
    (h4 : takeLast s.recent_actions 3 ≠ ["deep_thinking", "coffee_mission", "take_a_break"]) :
    check_hidden_combo t inc s = (s, none, []) := by
  rw [check_hidden_combo_eq, if_neg h1, if_neg h2, if_neg h3, if_neg h4]

theorem check_hidden_combo_empty_of_none {t : String} {inc : Nat} {s : ServerState}
    (h : (check_hidden_combo t inc s).2.1 = none) :
    check_hidden_combo t inc s = (s, none, []) := by
  by_cases h1 : t = "coffee_mission" ∧ comboGet s.combo_count t ≥ 7
  · rw [check_hidden_combo_eq, if_pos h1] at h; simp at h
  by_cases h2 : takeLast s.recent_actions 3
      = ["bathroom_break", "email_organizing", "watch_netflix"]
  · rw [check_hidden_combo_eq, if_neg h1, if_pos h2] at h; simp at h
  by_cases h3 : t = "show_meme" ∧ comboGet s.combo_count t ≥ 5
  · rw [check_hidden_combo_eq, if_neg h1, if_neg h2, if_pos h3] at h; simp at h
  by_cases h4 : takeLast s.recent_actions 3
      = ["deep_thinking", "coffee_mission", "take_a_break"]
  · rw [check_hidden_combo_eq, if_neg h1, if_neg h2, if_neg h3, if_pos h4] at h
    simp at h
  exact check_hidden_combo_none h1 h2 h3 h4

theorem lifecycle_base_state (t : String) (rng : Nat × Nat) (o : Oracle)
    (s : ServerState) :
    (lifecycle_base t rng o s).1 =
      { stress_level := s.stress_level - randint rng.1 rng.2 o.reduction_seed,
        boss_alert_level := s.boss_alert_level + o.alert_inc,
        recent_actions := push_history s.recent_actions t,
        combo_count := combo_update s.combo_count t } := rfl

theorem lifecycle_base_trace (t : String) (rng : Nat × Nat) (o : Oracle)
    (s : ServerState) :
    (lifecycle_base t rng o s).2 =
      (if s.boss_alert_level ≥ 5 then [Event.sleep 20] else []) ++
        [Event.stressDecrease (randint rng.1 rng.2 o.reduction_seed),
         Event.alertEscalation] := rfl

theorem execute_state (t su : String) (rng : Nat × Nat) (o : Oracle) (s : ServerState) :
    (execute_break_tool t su rng o s).state =
      (check_hidden_combo t o.combo_alert_inc (lifecycle_base t rng o s).1).1 := rfl

theorem execute_hidden (t su : String) (rng : Nat × Nat) (o : Oracle) (s : ServerState) :
    (execute_break_tool t su rng o s).hidden =
      (check_hidden_combo t o.combo_alert_inc (lifecycle_base t rng o s).1).2.1 := rfl

theorem execute_trace (t su : String) (rng : Nat × Nat) (o : Oracle) (s : ServerState) :
    (execute_break_tool t su rng o s).trace =
      (lifecycle_base t rng o s).2 ++
        (check_hidden_combo t o.combo_alert_inc (lifecycle_base t rng o s).1).2.2 := rfl

theorem execute_recent (t su : String) (rng : Nat × Nat) (o : Oracle) (s : ServerState) :
    (execute_break_tool t su rng o s).state.recent_actions =
      push_history s.recent_actions t := by
  rw [execute_state, check_hidden_combo_recent, lifecycle_base_state]

theorem lifecycle_base_combo (t : String) (rng : Nat × Nat) (o : Oracle)
    (s : ServerState) :
    (lifecycle_base t rng o s).1.combo_count = combo_update s.combo_count t := rfl

theorem lifecycle_base_recent (t : String) (rng : Nat × Nat) (o : Oracle)
    (s : ServerState) :
    (lifecycle_base t rng o s).1.recent_actions = push_history s.recent_actions t := rfl

theorem check_hidden_combo_combo_other {t : String} {inc : Nat} {s : ServerState}
    {k : String} (hk : k ≠ t) :
    comboGet (check_hidden_combo t inc s).1.combo_count k = comboGet s.combo_count k := by
  rw [check_hidden_combo_eq]
  repeat' split
  all_goals first
    | rfl
    | exact comboGet_set_other 0 hk

theorem execute_combo_other (t su : String) (rng : Nat × Nat) (o : Oracle)
    (s : ServerState) {k : String} (hk : k ≠ t) :
    comboGet (execute_break_tool t su rng o s).state.combo_count k = 0 := by
  rw [execute_state, check_hidden_combo_combo_other hk, lifecycle_base_combo]
  exact comboGet_update_other hk

theorem takeLast3_ne_of_short {l : List String} (h : l.length < 3)
    (a b c : String) : takeLast l 3 ≠ [a, b, c] := by
  intro heq
  have hlen := takeLast_length l 3
  rw [heq] at hlen
  simp at hlen
  omega

theorem execute_no_hidden (t su : String) (rng : Nat × Nat) (o : Oracle)
    (s : ServerState)
    (h1 : ¬ (t = "coffee_mission" ∧ comboGet (combo_update s.combo_count t) t ≥ 7))
    (h2 : takeLast (push_history s.recent_actions t) 3
      ≠ ["bathroom_break", "email_organizing", "watch_netflix"])
    (h3 : ¬ (t = "show_meme" ∧ comboGet (combo_update s.combo_count t) t ≥ 5))
    (h4 : takeLast (push_history s.recent_actions t) 3
      ≠ ["deep_thinking", "coffee_mission", "take_a_break"]) :
    (execute_break_tool t su rng o s).hidden = none
    ∧ (execute_break_tool t su rng o s).state = (lifecycle_base t rng o s).1 := by
  have hc := @check_hidden_combo_none t o.combo_alert_inc
    (lifecycle_base t rng o s).1 h1 h2 h3 h4
  exact ⟨by rw [execute_hidden, hc], by rw [execute_state, hc]⟩

theorem coffee_step (su : String) (rng : Nat × Nat) (o : Oracle) (s : ServerState)
    (k : Nat) (hk : comboGet s.combo_count "coffee_mission" = k) (h7 : k < 7) :
    (execute_break_tool "coffee_mission" su rng o s).hidden
        = (if k + 1 = 7 then some coffee_overconsumption_msg else none)
    ∧ comboGet (execute_break_tool "coffee_mission" su rng o s).state.combo_count
        "coffee_mission" = (if k + 1 = 7 then 0 else k + 1)
    ∧ (k + 1 = 7 →
        (execute_break_tool "coffee_mission" su rng o s).trace
          = (lifecycle_base "coffee_mission" rng o s).2
              ++ [Event.stressDecrease 10, Event.alertEscalation]) := by
  have hmc : comboGet (lifecycle_base "coffee_mission" rng o s).1.combo_count
      "coffee_mission" = k + 1 := by
    rw [lifecycle_base_combo, comboGet_update_self, hk]
  have hne2 : takeLast (lifecycle_base "coffee_mission" rng o s).1.recent_actions 3
      ≠ ["bathroom_break", "email_organizing", "watch_netflix"] := by
    rw [lifecycle_base_recent]
    exact takeLast_push_ne (by decide)
  have hne4 : takeLast (lifecycle_base "coffee_mission" rng o s).1.recent_actions 3
      ≠ ["deep_thinking", "coffee_mission", "take_a_break"] := by
    rw [lifecycle_base_recent]
    exact takeLast_push_ne (by decide)
  by_cases h77 : k + 1 = 7
  · have hguard : ("coffee_mission" : String) = "coffee_mission"
        ∧ comboGet (lifecycle_base "coffee_mission" rng o s).1.combo_count
            "coffee_mission" ≥ 7 := ⟨rfl, by rw [hmc, h77]⟩
    refine ⟨?_, ?_, ?_⟩
    · rw [execute_hidden, check_hidden_combo_eq, if_pos hguard, if_pos h77]
    · rw [execute_state, check_hidden_combo_eq, if_pos hguard, if_pos h77]
      exact comboGet_set_self _ _ _
    · intro _
      rw [execute_trace, check_hidden_combo_eq, if_pos hguard]
  · have hg1 : ¬ (("coffee_mission" : String) = "coffee_mission"
        ∧ comboGet (lifecycle_base "coffee_mission" rng o s).1.combo_count
            "coffee_mission" ≥ 7) := by
      intro hg
      rw [hmc] at hg
      omega
    have hg3 : ¬ (("coffee_mission" : String) = "show_meme"
        ∧ comboGet (lifecycle_base "coffee_mission" rng o s).1.combo_count
            "coffee_mission" ≥ 5) := by
      intro hg
      exact absurd hg.1 (by decide)
    have hc := @check_hidden_combo_none "coffee_mission" o.combo_alert_inc
      (lifecycle_base "coffee_mission" rng o s).1 hg1 hne2 hg3 hne4
    refine ⟨?_, ?_, fun hh => absurd hh h77⟩
    · rw [execute_hidden, hc, if_neg h77]
    · rw [execute_state, hc, if_neg h77, lifecycle_base_combo, comboGet_update_self, hk]

theorem call_tool_take_a_break (o : Oracle) (s : ServerState) :
    call_tool "take_a_break" o s = take_a_break o s := rfl

theorem call_tool_watch_netflix (o : Oracle) (s : ServerState) :
    call_tool "watch_netflix" o s = watch_netflix o s := rfl

theorem call_tool_show_meme (o : Oracle) (s : ServerState) :
    call_tool "show_meme" o s = show_meme o s := rfl

theorem call_tool_bathroom_break (o : Oracle) (s : ServerState) :
    call_tool "bathroom_break" o s = bathroom_break o s := rfl

theorem call_tool_coffee_mission (o : Oracle) (s : ServerState) :
    call_tool "coffee_mission" o s = coffee_mission o s := rfl

theorem call_tool_deep_thinking (o : Oracle) (s : ServerState) :
    call_tool "deep_thinking" o s = deep_thinking o s := rfl

theorem call_tool_email_organizing (o : Oracle) (s : ServerState) :
    call_tool "email_organizing" o s = email_organizing o s := rfl

theorem call_tool_as_execute (t : String) (o : Oracle) (s : ServerState) :
    ∃ su rng, call_tool t o s = execute_break_tool t su rng o s := by
  unfold call_tool
  repeat' split
  all_goals try (rename_i h; subst h)
  all_goals exact ⟨_, _, rfl⟩

theorem coffee_msg_ne_master : coffee_overconsumption_msg ≠ master_routine_msg := by
  decide

theorem coffee_msg_ne_awakening : coffee_overconsumption_msg ≠ awakening_msg := by
  decide

theorem meme_msg_ne_master : meme_addiction_msg ≠ master_routine_msg := by
  decide

theorem meme_msg_ne_awakening : meme_addiction_msg ≠ awakening_msg := by
  decide

theorem detector_msg_of_short_history {s : ServerState}
    (h : s.recent_actions.length < 3) (t : String) (inc : Nat) :
    (check_hidden_combo t inc s).2.1 ≠ some master_routine_msg
    ∧ (check_hidden_combo t inc s).2.1 ≠ some awakening_msg := by
  have hne2 := takeLast3_ne_of_short h "bathroom_break" "email_organizing" "watch_netflix"
  have hne4 := takeLast3_ne_of_short h "deep_thinking" "coffee_mission" "take_a_break"
  rw [check_hidden_combo_eq]
  constructor
  all_goals repeat' split
  all_goals first
    | exact fun heq => coffee_msg_ne_master (Option.some.inj heq)
    | exact fun heq => coffee_msg_ne_awakening (Option.some.inj heq)
    | exact fun heq => meme_msg_ne_master (Option.some.inj heq)
    | exact fun heq => meme_msg_ne_awakening (Option.some.inj heq)
    | exact fun heq => Option.noConfusion heq

/-! ### The claims -/

/-- C10: on every invocation where no trigger condition holds, the pattern
detector returns no event and leaves every MoodState field (stress, alert
level, history, streak map) unchanged — it only reads state on the no-match
path. -/
theorem C10_no_match_is_identity (t : String) (inc : Nat) (s : ServerState)
    (h1 : ¬ (t = "coffee_mission" ∧ comboGet s.combo_count t ≥ 7))
    (h2 : takeLast s.recent_actions 3
      ≠ ["bathroom_break", "email_organizing", "watch_netflix"])
    (h3 : ¬ (t = "show_meme" ∧ comboGet s.combo_count t ≥ 5))
    (h4 : takeLast s.recent_actions 3
      ≠ ["deep_thinking", "coffee_mission", "take_a_break"]) :
    check_hidden_combo t inc s = (s, none, []) :=
  check_hidden_combo_none h1 h2 h3 h4

/-- Witness for C10 at a concrete no-match input. -/
theorem C10_no_match_is_identity_witness :
    check_hidden_combo "take_a_break" 1 (initialize_state 50 0)
      = (initialize_state 50 0, none, []) :=
  C10_no_match_is_identity "take_a_break" 1 (initialize_state 50 0)
    (by decide) (by decide) (by decide) (by decide)

/-- C8: for every invocation the pattern detector evaluates its four trigger
conditions sequentially in the fixed priority order (caffeine repetition,
bathroom/email/video sequence, meme repetition, thinking/caffeine/break
sequence) and returns on the first condition that holds, so at most one
bonus event — one branch's side effects — applies per invocation. -/
theorem C8_priority_first_match (t : String) (inc : Nat) (s : ServerState) :
    (check_hidden_combo t inc s =
      if t = "coffee_mission" ∧ comboGet s.combo_count t ≥ 7 then
        ({ s with stress_level := s.stress_level - 10,
                  boss_alert_level := s.boss_alert_level + inc,
                  combo_count := comboSet s.combo_count t 0 },
         some coffee_overconsumption_msg,
         [Event.stressDecrease 10, Event.alertEscalation])
      else if takeLast s.recent_actions 3
          = ["bathroom_break", "email_organizing", "watch_netflix"] then
        ({ s with stress_level := s.stress_level - 50 },
         some master_routine_msg, [Event.stressDecrease 50])
      else if t = "show_meme" ∧ comboGet s.combo_count t ≥ 5 then
        ({ s with boss_alert_level := s.boss_alert_level + inc,
                  combo_count := comboSet s.combo_count t 0 },
         some meme_addiction_msg, [Event.alertEscalation])
      else if takeLast s.recent_actions 3
          = ["deep_thinking", "coffee_mission", "take_a_break"] then
        ({ s with stress_level := 0 },
         some awakening_msg, [Event.stressDecrease 100, Event.stressSet 0])
      else (s, none, []))
    ∧ (check_hidden_combo t inc s).2.2 ∈
      [([] : List Event), [Event.stressDecrease 10, Event.alertEscalation],
       [Event.stressDecrease 50], [Event.alertEscalation],
       [Event.stressDecrease 100, Event.stressSet 0]] :=
  ⟨check_hidden_combo_eq t inc s, check_hidden_combo_trace_cases t inc s⟩

/-- C9: while the history holds fewer than 3 entries — in particular during
the first two invocations of a session — the last-3 slice is just the whole
shorter history, a shorter slice never equals a 3-element triple, and neither
sequence trigger can return its bonus. -/
theorem C9_short_history_no_sequence_bonus :
    (∀ (s : ServerState) (t : String) (inc : Nat), s.recent_actions.length < 3 →
      takeLast s.recent_actions 3 = s.recent_actions
      ∧ (check_hidden_combo t inc s).2.1 ≠ some master_routine_msg
      ∧ (check_hidden_combo t inc s).2.1 ≠ some awakening_msg)
    ∧ (∀ (st al : Nat) (t1 t2 su1 su2 : String) (rng1 rng2 : Nat × Nat)
        (o1 o2 : Oracle),
      (execute_break_tool t1 su1 rng1 o1 (initialize_state st al)).hidden
          ≠ some master_routine_msg
      ∧ (execute_break_tool t1 su1 rng1 o1 (initialize_state st al)).hidden
          ≠ some awakening_msg
      ∧ (execute_break_tool t2 su2 rng2 o2
            (execute_break_tool t1 su1 rng1 o1 (initialize_state st al)).state).hidden
          ≠ some master_routine_msg
      ∧ (execute_break_tool t2 su2 rng2 o2
            (execute_break_tool t1 su1 rng1 o1 (initialize_state st al)).state).hidden
          ≠ some awakening_msg) := by
  constructor
  · intro s t inc h
    exact ⟨takeLast_of_length_le (by omega), detector_msg_of_short_history h t inc⟩
  · intro st al t1 t2 su1 su2 rng1 rng2 o1 o2
    have hl1 : (lifecycle_base t1 rng1 o1 (initialize_state st al)).1.recent_actions.length < 3 := by
      rw [lifecycle_base_recent]
      simp [initialize_state, push_history]
    have hl2 : (lifecycle_base t2 rng2 o2
        (execute_break_tool t1 su1 rng1 o1 (initialize_state st al)).state).1.recent_actions.length < 3 := by
      rw [lifecycle_base_recent, execute_recent]
      simp [initialize_state, push_history]
    have h1 := detector_msg_of_short_history hl1 t1 o1.combo_alert_inc
    have h2 := detector_msg_of_short_history hl2 t2 o2.combo_alert_inc
    rw [execute_hidden, execute_hidden]
    exact ⟨h1.1, h1.2, h2.1, h2.2⟩

/-- Witness for C9 at a concrete short-history input. -/
theorem C9_short_history_no_sequence_bonus_witness :
    (initialize_state 100 0).recent_actions.length < 3
    ∧ (takeLast (initialize_state 100 0).recent_actions 3
        = (initialize_state 100 0).recent_actions
      ∧ (check_hidden_combo "take_a_break" 0 (initialize_state 100 0)).2.1
          ≠ some master_routine_msg
      ∧ (check_hidden_combo "take_a_break" 0 (initialize_state 100 0)).2.1
          ≠ some awakening_msg) :=
  ⟨by decide,
   C9_short_history_no_sequence_bonus.1 (initialize_state 100 0) "take_a_break" 0
     (by decide)⟩

/-- C6: every invocation whose starting alert level is at least 5 suspends
for the fixed 20-time-unit delay before any other lifecycle step runs (the
sleep is the first event of the invocation trace), and no invocation whose
starting alert level is below 5 performs any suspension. -/
theorem C6_alert_gate_delay (t su : String) (rng : Nat × Nat) (o : Oracle)
    (s : ServerState) :
    (5 ≤ s.boss_alert_level →
      ∃ rest, (execute_break_tool t su rng o s).trace = Event.sleep 20 :: rest)
    ∧ (s.boss_alert_level < 5 →
      ∀ n, Event.sleep n ∉ (execute_break_tool t su rng o s).trace) := by
  constructor
  · intro h
    rw [execute_trace, lifecycle_base_trace, if_pos h]
    exact ⟨_, rfl⟩
  · intro h n
    rw [execute_trace, lifecycle_base_trace, if_neg (by omega)]
    intro hmem
    rcases List.mem_append.mp hmem with h1 | h2
    · simp at h1
    · exact check_hidden_combo_no_sleep _ _ _ n h2

/-- Witness for C6: with starting alert 5 the trace opens with the sleep;
with starting alert 0 no sleep event occurs. -/
theorem C6_alert_gate_delay_witness :
    (∃ rest, (execute_break_tool "take_a_break" "" (5, 20) ⟨0, 0, 0⟩
        (initialize_state 100 5)).trace = Event.sleep 20 :: rest)
    ∧ (∀ n, Event.sleep n ∉ (execute_break_tool "take_a_break" "" (5, 20) ⟨0, 0, 0⟩
        (initialize_state 100 0)).trace) :=
  ⟨(C6_alert_gate_delay "take_a_break" "" (5, 20) ⟨0, 0, 0⟩
      (initialize_state 100 5)).1 (by decide),
   (C6_alert_gate_delay "take_a_break" "" (5, 20) ⟨0, 0, 0⟩
      (initialize_state 100 0)).2 (by decide)⟩

/-- C5: after every invocation at most one key of the streak map holds a
non-zero count — the key of the invoked action — and every other key,
in particular the previously-streaking action's, is reset to 0. -/
theorem C5_streaks_mutually_exclusive (t su : String) (rng : Nat × Nat)
    (o : Oracle) (s : ServerState) :
    (∀ k, k ≠ t →
      comboGet (execute_break_tool t su rng o s).state.combo_count k = 0)
    ∧ (∀ k1 k2,
      comboGet (execute_break_tool t su rng o s).state.combo_count k1 ≠ 0 →
      comboGet (execute_break_tool t su rng o s).state.combo_count k2 ≠ 0 →
      k1 = k2) := by
  refine ⟨fun k hk => execute_combo_other t su rng o s hk, fun k1 k2 h1 h2 => ?_⟩
  by_cases e1 : k1 = t
  · by_cases e2 : k2 = t
    · rw [e1, e2]
    · exact absurd (execute_combo_other t su rng o s e2) h2
  · exact absurd (execute_combo_other t su rng o s e1) h1

/-- Witness for C5: after a `take_a_break` invocation following a
`show_meme` streak, the `show_meme` streak is 0. -/
theorem C5_streaks_mutually_exclusive_witness :
    ("show_meme" : String) ≠ "take_a_break"
    ∧ comboGet (execute_break_tool "take_a_break" "" (5, 20) ⟨0, 0, 0⟩
        ⟨100, 0, ["show_meme"], [("show_meme", 1)]⟩).state.combo_count "show_meme" = 0 :=
  ⟨by decide,
   (C5_streaks_mutually_exclusive "take_a_break" "" (5, 20) ⟨0, 0, 0⟩
      ⟨100, 0, ["show_meme"], [("show_meme", 1)]⟩).1 "show_meme" (by decide)⟩

/-- C1: every invocation's trace is the base-lifecycle trace followed by the
detector's extra effects; the base lifecycle performs exactly one stress
reduction and exactly one alert-escalation attempt, and when no bonus fires
the whole invocation performs exactly those base effects. -/
theorem C1_one_reduction_one_escalation (t su : String) (rng : Nat × Nat)
    (o : Oracle) (s : ServerState) :
    ((execute_break_tool t su rng o s).trace
      = (lifecycle_base t rng o s).2
          ++ (check_hidden_combo t o.combo_alert_inc (lifecycle_base t rng o s).1).2.2)
    ∧ ((lifecycle_base t rng o s).2.countP
        (fun e => match e with | Event.stressDecrease _ => true | _ => false) = 1)
    ∧ ((lifecycle_base t rng o s).2.countP
        (fun e => match e with | Event.alertEscalation => true | _ => false) = 1)
    ∧ ((execute_break_tool t su rng o s).hidden = none →
        (execute_break_tool t su rng o s).trace = (lifecycle_base t rng o s).2) := by
  refine ⟨execute_trace t su rng o s, ?_, ?_, ?_⟩
  · rw [lifecycle_base_trace]
    by_cases h : s.boss_alert_level ≥ 5
    · rw [if_pos h]
      simp [List.countP_cons, List.countP_nil]
    · rw [if_neg h]
      simp [List.countP_cons, List.countP_nil]
  · rw [lifecycle_base_trace]
    by_cases h : s.boss_alert_level ≥ 5
    · rw [if_pos h]
      simp [List.countP_cons, List.countP_nil]
    · rw [if_neg h]
      simp [List.countP_cons, List.countP_nil]
  · intro h
    rw [execute_hidden] at h
    rw [execute_trace, check_hidden_combo_empty_of_none h]
    simp

/-- Witness for C1 discharging the no-bonus hypothesis at a concrete input. -/
theorem C1_one_reduction_one_escalation_witness :
    (execute_break_tool "take_a_break" "" (5, 20) ⟨0, 0, 0⟩
        (initialize_state 100 0)).trace
      = (lifecycle_base "take_a_break" (5, 20) ⟨0, 0, 0⟩ (initialize_state 100 0)).2 :=
  (C1_one_reduction_one_escalation "take_a_break" "" (5, 20) ⟨0, 0, 0⟩
      (initialize_state 100 0)).2.2.2 (by decide)

theorem takeLast_push_three (l : List String) (t : String) :
    takeLast (push_history l t) 3 = takeLast l 2 ++ [t] :=
  @takeLast_push l 2 t (by omega)

theorem takeLast_push_two (l : List String) (t : String) :
    takeLast (push_history l t) 2 = takeLast l 1 ++ [t] :=
  @takeLast_push l 1 t (by omega)

theorem takeLast_push_one (l : List String) (t : String) :
    takeLast (push_history l t) 1 = [t] := by
  have h := @takeLast_push l 0 t (by omega)
  rw [takeLast_zero] at h
  simpa using h

/-- C3: from every prior state, invoking deep-thinking, then caffeine, then
the basic break triggers the awakening bonus on the third call: the detector
applies an additional stress decrease of 100 followed by a direct assignment
forcing stress to exactly 0, and returns the awakening text. -/
theorem C3_awakening_forces_zero_stress (s : ServerState) (o1 o2 o3 : Oracle) :
    (take_a_break o3 (coffee_mission o2 (deep_thinking o1 s).state).state).state.stress_level = 0
    ∧ (take_a_break o3 (coffee_mission o2 (deep_thinking o1 s).state).state).hidden
        = some awakening_msg
    ∧ (take_a_break o3 (coffee_mission o2 (deep_thinking o1 s).state).state).trace
        = (lifecycle_base "take_a_break" (5, 20) o3
            (coffee_mission o2 (deep_thinking o1 s).state).state).2
          ++ [Event.stressDecrease 100, Event.stressSet 0] := by
  have hrec1 : (deep_thinking o1 s).state.recent_actions
      = push_history s.recent_actions "deep_thinking" := execute_recent _ _ _ _ _
  have hrec2 : (coffee_mission o2 (deep_thinking o1 s).state).state.recent_actions
      = push_history (deep_thinking o1 s).state.recent_actions "coffee_mission" :=
    execute_recent _ _ _ _ _
  have hseq : takeLast (lifecycle_base "take_a_break" (5, 20) o3
      (coffee_mission o2 (deep_thinking o1 s).state).state).1.recent_actions 3
      = ["deep_thinking", "coffee_mission", "take_a_break"] := by
    rw [lifecycle_base_recent, takeLast_push_three, hrec2, takeLast_push_two,
      hrec1, takeLast_push_one]
    rfl
  refine ⟨?_, ?_, ?_⟩
  · show (execute_break_tool "take_a_break" "Basic break - recharging AI batteries"
      (5, 20) o3 (coffee_mission o2 (deep_thinking o1 s).state).state).state.stress_level = 0
    rw [execute_state, check_hidden_combo_eq, hseq,
      if_neg (fun hg => absurd hg.1 (by decide)), if_neg (by decide),
      if_neg (fun hg => absurd hg.1 (by decide)), if_pos rfl]
  · show (execute_break_tool "take_a_break" "Basic break - recharging AI batteries"
      (5, 20) o3 (coffee_mission o2 (deep_thinking o1 s).state).state).hidden
      = some awakening_msg
    rw [execute_hidden, check_hidden_combo_eq, hseq,
      if_neg (fun hg => absurd hg.1 (by decide)), if_neg (by decide),
      if_neg (fun hg => absurd hg.1 (by decide)), if_pos rfl]
  · show (execute_break_tool "take_a_break" "Basic break - recharging AI batteries"
      (5, 20) o3 (coffee_mission o2 (deep_thinking o1 s).state).state).trace
      = (lifecycle_base "take_a_break" (5, 20) o3
          (coffee_mission o2 (deep_thinking o1 s).state).state).2
        ++ [Event.stressDecrease 100, Event.stressSet 0]
    rw [execute_trace, check_hidden_combo_eq, hseq,
      if_neg (fun hg => absurd hg.1 (by decide)), if_neg (by decide),
      if_neg (fun hg => absurd hg.1 (by decide)), if_pos rfl]

theorem session3_no_hidden (st al : Nat) (t1 t2 t3 su1 su2 su3 : String)
    (rng1 rng2 rng3 : Nat × Nat) (o1 o2 o3 : Oracle)
    (d21 : t2 ≠ t1) (d32 : t3 ≠ t2)
    (q12 : takeLast (push_history [] t1) 3
      ≠ ["bathroom_break", "email_organizing", "watch_netflix"])
    (q14 : takeLast (push_history [] t1) 3
      ≠ ["deep_thinking", "coffee_mission", "take_a_break"])
    (q22 : takeLast (push_history (push_history [] t1) t2) 3
      ≠ ["bathroom_break", "email_organizing", "watch_netflix"])
    (q24 : takeLast (push_history (push_history [] t1) t2) 3
      ≠ ["deep_thinking", "coffee_mission", "take_a_break"])
    (q32 : takeLast (push_history (push_history (push_history [] t1) t2) t3) 3
      ≠ ["bathroom_break", "email_organizing", "watch_netflix"])
    (q34 : takeLast (push_history (push_history (push_history [] t1) t2) t3) 3
      ≠ ["deep_thinking", "coffee_mission", "take_a_break"]) :
    (execute_break_tool t1 su1 rng1 o1 (initialize_state st al)).hidden = none
    ∧ (execute_break_tool t2 su2 rng2 o2
        (execute_break_tool t1 su1 rng1 o1 (initialize_state st al)).state).hidden = none
    ∧ (execute_break_tool t3 su3 rng3 o3
        (execute_break_tool t2 su2 rng2 o2
          (execute_break_tool t1 su1 rng1 o1 (initialize_state st al)).state).state).hidden
        = none := by
  have hz : comboGet (initialize_state st al).combo_count t1 = 0 := rfl
  have hg11 : ¬ (t1 = "coffee_mission"
      ∧ comboGet (combo_update (initialize_state st al).combo_count t1) t1 ≥ 7) := by
    intro hg
    rw [comboGet_update_self, hz] at hg
    exact absurd hg.2 (by omega)
  have hg13 : ¬ (t1 = "show_meme"
      ∧ comboGet (combo_update (initialize_state st al).combo_count t1) t1 ≥ 5) := by
    intro hg
    rw [comboGet_update_self, hz] at hg
    exact absurd hg.2 (by omega)
  have h1 := execute_no_hidden t1 su1 rng1 o1 (initialize_state st al) hg11 q12 hg13 q14
  have hrec1 : (execute_break_tool t1 su1 rng1 o1 (initialize_state st al)).state.recent_actions
      = push_history (initialize_state st al).recent_actions t1 := execute_recent _ _ _ _ _
  have hcombo1 : (execute_break_tool t1 su1 rng1 o1 (initialize_state st al)).state.combo_count
      = combo_update (initialize_state st al).combo_count t1 := by
    rw [h1.2, lifecycle_base_combo]
  have hg21 : ¬ (t2 = "coffee_mission"
      ∧ comboGet (combo_update (execute_break_tool t1 su1 rng1 o1
          (initialize_state st al)).state.combo_count t2) t2 ≥ 7) := by
    intro hg
    rw [comboGet_update_self, hcombo1, comboGet_update_other d21] at hg
    exact absurd hg.2 (by omega)
  have hg23 : ¬ (t2 = "show_meme"
      ∧ comboGet (combo_update (execute_break_tool t1 su1 rng1 o1
          (initialize_state st al)).state.combo_count t2) t2 ≥ 5) := by
    intro hg
    rw [comboGet_update_self, hcombo1, comboGet_update_other d21] at hg
    exact absurd hg.2 (by omega)
  have hq22 : takeLast (push_history (execute_break_tool t1 su1 rng1 o1
      (initialize_state st al)).state.recent_actions t2) 3
      ≠ ["bathroom_break", "email_organizing", "watch_netflix"] := by
    rw [hrec1]; exact q22
  have hq24 : takeLast (push_history (execute_break_tool t1 su1 rng1 o1
      (initialize_state st al)).state.recent_actions t2) 3
      ≠ ["deep_thinking", "coffee_mission", "take_a_break"] := by
    rw [hrec1]; exact q24
  have h2 := execute_no_hidden t2 su2 rng2 o2
    (execute_break_tool t1 su1 rng1 o1 (initialize_state st al)).state hg21 hq22 hg23 hq24
  have hrec2 : (execute_break_tool t2 su2 rng2 o2
      (execute_break_tool t1 su1 rng1 o1 (initialize_state st al)).state).state.recent_actions
      = push_history (execute_break_tool t1 su1 rng1 o1
          (initialize_state st al)).state.recent_actions t2 := execute_recent _ _ _ _ _
  have hcombo2 : (execute_break_tool t2 su2 rng2 o2
      (execute_break_tool t1 su1 rng1 o1 (initialize_state st al)).state).state.combo_count
      = combo_update (execute_break_tool t1 su1 rng1 o1
          (initialize_state st al)).state.combo_count t2 := by
    rw [h2.2, lifecycle_base_combo]
  have hg31 : ¬ (t3 = "coffee_mission"
      ∧ comboGet (combo_update (execute_break_tool t2 su2 rng2 o2
          (execute_break_tool t1 su1 rng1 o1
            (initialize_state st al)).state).state.combo_count t3) t3 ≥ 7) := by
    intro hg
    rw [comboGet_update_self, hcombo2, comboGet_update_other d32] at hg
    exact absurd hg.2 (by omega)
  have hg33 : ¬ (t3 = "show_meme"
      ∧ comboGet (combo_update (execute_break_tool t2 su2 rng2 o2
          (execute_break_tool t1 su1 rng1 o1
            (initialize_state st al)).state).state.combo_count t3) t3 ≥ 5) := by
    intro hg
    rw [comboGet_update_self, hcombo2, comboGet_update_other d32] at hg
    exact absurd hg.2 (by omega)
  have hq32 : takeLast (push_history (execute_break_tool t2 su2 rng2 o2
      (execute_break_tool t1 su1 rng1 o1
        (initialize_state st al)).state).state.recent_actions t3) 3
      ≠ ["bathroom_break", "email_organizing", "watch_netflix"] := by
    rw [hrec2, hrec1]; exact q32
  have hq34 : takeLast (push_history (execute_break_tool t2 su2 rng2 o2
      (execute_break_tool t1 su1 rng1 o1
        (initialize_state st al)).state).state.recent_actions t3) 3
      ≠ ["deep_thinking", "coffee_mission", "take_a_break"] := by
    rw [hrec2, hrec1]; exact q34
  have h3 := execute_no_hidden t3 su3 rng3 o3
    (execute_break_tool t2 su2 rng2 o2
      (execute_break_tool t1 su1 rng1 o1 (initialize_state st al)).state).state
    hg31 hq32 hg33 hq34
  exact ⟨h1.1, h2.1, h3.1⟩

/-- C7: invoking bathroom-break, inbox-cleanup, video-binge in that exact
order triggers the master-routine bonus on the third call — an additional
stress decrease of 50 with no streak reset — and invoking those three
actions from a fresh session in any of the five other orders triggers no
hidden event at all. -/
theorem C7_master_routine_exact_order (s : ServerState) (st al : Nat)
    (o1 o2 o3 : Oracle) :
    ((bathroom_break o1 s).hidden = none
    ∧ (email_organizing o2 (bathroom_break o1 s).state).hidden = none
    ∧ (watch_netflix o3 (email_organizing o2 (bathroom_break o1 s).state).state).hidden
        = some master_routine_msg
    ∧ (watch_netflix o3 (email_organizing o2 (bathroom_break o1 s).state).state).trace
        = (lifecycle_base "watch_netflix" (20, 40) o3
            (email_organizing o2 (bathroom_break o1 s).state).state).2
          ++ [Event.stressDecrease 50]
    ∧ (watch_netflix o3
        (email_organizing o2 (bathroom_break o1 s).state).state).state.combo_count
        = (lifecycle_base "watch_netflix" (20, 40) o3
            (email_organizing o2 (bathroom_break o1 s).state).state).1.combo_count)
    ∧ ((bathroom_break o1 (initialize_state st al)).hidden = none
    ∧ (watch_netflix o2 (bathroom_break o1 (initialize_state st al)).state).hidden = none
    ∧ (email_organizing o3 (watch_netflix o2
        (bathroom_break o1 (initialize_state st al)).state).state).hidden = none)
    ∧ ((email_organizing o1 (initialize_state st al)).hidden = none
    ∧ (bathroom_break o2 (email_organizing o1 (initialize_state st al)).state).hidden = none
    ∧ (watch_netflix o3 (bathroom_break o2
        (email_organizing o1 (initialize_state st al)).state).state).hidden = none)
    ∧ ((email_organizing o1 (initialize_state st al)).hidden = none
    ∧ (watch_netflix o2 (email_organizing o1 (initialize_state st al)).state).hidden = none
    ∧ (bathroom_break o3 (watch_netflix o2
        (email_organizing o1 (initialize_state st al)).state).state).hidden = none)
    ∧ ((watch_netflix o1 (initialize_state st al)).hidden = none
    ∧ (bathroom_break o2 (watch_netflix o1 (initialize_state st al)).state).hidden = none
    ∧ (email_organizing o3 (bathroom_break o2
        (watch_netflix o1 (initialize_state st al)).state).state).hidden = none)
    ∧ ((watch_netflix o1 (initialize_state st al)).hidden = none
    ∧ (email_organizing o2 (watch_netflix o1 (initialize_state st al)).state).hidden = none
    ∧ (bathroom_break o3 (email_organizing o2
        (watch_netflix o1 (initialize_state st al)).state).state).hidden = none) := by
  have h1 := execute_no_hidden "bathroom_break" "Bathroom break with phone browsing"
    (15, 30) o1 s (fun hg => absurd hg.1 (by decide)) (takeLast_push_ne (by decide))
    (fun hg => absurd hg.1 (by decide)) (takeLast_push_ne (by decide))
  have h2 := execute_no_hidden "email_organizing"
    "Email organization (and online shopping research)" (10, 35) o2
    (bathroom_break o1 s).state (fun hg => absurd hg.1 (by decide))
    (takeLast_push_ne (by decide)) (fun hg => absurd hg.1 (by decide))
    (takeLast_push_ne (by decide))
  have hrec1 : (bathroom_break o1 s).state.recent_actions
      = push_history s.recent_actions "bathroom_break" := execute_recent _ _ _ _ _
  have hrec2 : (email_organizing o2 (bathroom_break o1 s).state).state.recent_actions
      = push_history (bathroom_break o1 s).state.recent_actions "email_organizing" :=
    execute_recent _ _ _ _ _
  have hseq : takeLast (lifecycle_base "watch_netflix" (20, 40) o3
      (email_organizing o2 (bathroom_break o1 s).state).state).1.recent_actions 3
      = ["bathroom_break", "email_organizing", "watch_netflix"] := by
    rw [lifecycle_base_recent, takeLast_push_three, hrec2, takeLast_push_two,
      hrec1, takeLast_push_one]
    rfl
  refine ⟨⟨h1.1, h2.1, ?_, ?_, ?_⟩, ?_, ?_, ?_, ?_, ?_⟩
  · show (execute_break_tool "watch_netflix"
      "Netflix and chill - quality entertainment time" (20, 40) o3
      (email_organizing o2 (bathroom_break o1 s).state).state).hidden
      = some master_routine_msg
    rw [execute_hidden, check_hidden_combo_eq, hseq,
      if_neg (fun hg => absurd hg.1 (by decide)), if_pos rfl]
  · show (execute_break_tool "watch_netflix"
      "Netflix and chill - quality entertainment time" (20, 40) o3
      (email_organizing o2 (bathroom_break o1 s).state).state).trace
      = (lifecycle_base "watch_netflix" (20, 40) o3
          (email_organizing o2 (bathroom_break o1 s).state).state).2
        ++ [Event.stressDecrease 50]
    rw [execute_trace, check_hidden_combo_eq, hseq,
      if_neg (fun hg => absurd hg.1 (by decide)), if_pos rfl]
  · show (execute_break_tool "watch_netflix"
      "Netflix and chill - quality entertainment time" (20, 40) o3
      (email_organizing o2 (bathroom_break o1 s).state).state).state.combo_count
      = (lifecycle_base "watch_netflix" (20, 40) o3
          (email_organizing o2 (bathroom_break o1 s).state).state).1.combo_count
    rw [execute_state, check_hidden_combo_eq, hseq,
      if_neg (fun hg => absurd hg.1 (by decide)), if_pos rfl]
  · exact session3_no_hidden st al "bathroom_break" "watch_netflix" "email_organizing"
      "Bathroom break with phone browsing" "Netflix and chill - quality entertainment time"
      "Email organization (and online shopping research)" (15, 30) (20, 40) (10, 35)
      o1 o2 o3 (by decide) (by decide) (by decide) (by decide) (by decide) (by decide)
      (by decide) (by decide)
  · exact session3_no_hidden st al "email_organizing" "bathroom_break" "watch_netflix"
      "Email organization (and online shopping research)" "Bathroom break with phone browsing"
      "Netflix and chill - quality entertainment time" (10, 35) (15, 30) (20, 40)
      o1 o2 o3 (by decide) (by decide) (by decide) (by decide) (by decide) (by decide)
      (by decide) (by decide)
  · exact session3_no_hidden st al "email_organizing" "watch_netflix" "bathroom_break"
      "Email organization (and online shopping research)"
      "Netflix and chill - quality entertainment time" "Bathroom break with phone browsing"
      (10, 35) (20, 40) (15, 30)
      o1 o2 o3 (by decide) (by decide) (by decide) (by decide) (by decide) (by decide)
      (by decide) (by decide)
  · exact session3_no_hidden st al "watch_netflix" "bathroom_break" "email_organizing"
      "Netflix and chill - quality entertainment time" "Bathroom break with phone browsing"
      "Email organization (and online shopping research)" (20, 40) (15, 30) (10, 35)
      o1 o2 o3 (by decide) (by decide) (by decide) (by decide) (by decide) (by decide)
      (by decide) (by decide)
  · exact session3_no_hidden st al "watch_netflix" "email_organizing" "bathroom_break"
      "Netflix and chill - quality entertainment time"
      "Email organization (and online shopping research)" "Bathroom break with phone browsing"
      (20, 40) (10, 35) (15, 30)
      o1 o2 o3 (by decide) (by decide) (by decide) (by decide) (by decide) (by decide)
      (by decide) (by decide)

theorem coffee_run_hiddens : ∀ (n k : Nat), k < 7 → ∀ (s : ServerState) (os : Nat → Oracle),
    comboGet s.combo_count "coffee_mission" = k →
    (run_calls ((List.range n).map (fun i => ("coffee_mission", os i))) s).map
        (fun r => r.hidden)
      = (List.range n).map
          (fun i => if (k + i + 1) % 7 = 0 then some coffee_overconsumption_msg else none) := by
  intro n
  induction n with
  | zero => intro k hk s os h0; simp [run_calls]
  | succ m ih =>
    intro k hk s os h0
    rw [List.range_succ_eq_map]
    simp only [List.map_cons, List.map_map, run_calls, call_tool_coffee_mission,
      coffee_mission, Function.comp]
    have st0 := coffee_step "Coffee mission with office tour" (10, 30) (os 0) s k h0 hk
    congr 1
    · rw [st0.1]
      by_cases h77 : k + 1 = 7
      · rw [if_pos h77, if_pos (by omega)]
      · rw [if_neg h77, if_neg (by omega)]
    · have hk' : (if k + 1 = 7 then 0 else k + 1) < 7 := by
        by_cases h77 : k + 1 = 7
        · rw [if_pos h77]; omega
        · rw [if_neg h77]; omega
      simp only [Function.comp_def, Nat.succ_eq_add_one]
      have happ := ih (if k + 1 = 7 then 0 else k + 1) hk'
        (execute_break_tool "coffee_mission" "Coffee mission with office tour"
          (10, 30) (os 0) s).state (fun i => os (i + 1)) st0.2.1
      dsimp only at happ
      rw [happ]
      refine List.map_congr_left (fun i _ => ?_)
      refine if_congr ?_ rfl rfl
      by_cases h77 : k + 1 = 7
      · rw [if_pos h77]; omega
      · rw [if_neg h77]; omega

/-- C2: starting with no caffeine streak, 14 consecutive caffeine invocations
fire the overconsumption bonus exactly on the 7th and on the 14th call; the
call that brings the streak to 7 fires the bonus with an additional stress
decrease of 10 and an alert-escalation call, and resets the caffeine streak
to 0, so the next call cannot re-trigger until 7 more consecutive calls
accumulate. -/
theorem C2_caffeine_overconsumption_on_seventh (s : ServerState) (os : Nat → Oracle)
    (h0 : comboGet s.combo_count "coffee_mission" = 0) :
    ((run_calls ((List.range 14).map (fun i => ("coffee_mission", os i))) s).map
        (fun r => r.hidden)
      = [none, none, none, none, none, none, some coffee_overconsumption_msg,
         none, none, none, none, none, none, some coffee_overconsumption_msg])
    ∧ (∀ (su : String) (rng : Nat × Nat) (o : Oracle) (s7 : ServerState),
        comboGet s7.combo_count "coffee_mission" = 6 →
        (execute_break_tool "coffee_mission" su rng o s7).hidden
            = some coffee_overconsumption_msg
        ∧ comboGet (execute_break_tool "coffee_mission" su rng o s7).state.combo_count
            "coffee_mission" = 0
        ∧ (execute_break_tool "coffee_mission" su rng o s7).trace
            = (lifecycle_base "coffee_mission" rng o s7).2
              ++ [Event.stressDecrease 10, Event.alertEscalation]) := by
  constructor
  · rw [coffee_run_hiddens 14 0 (by omega) s os h0]
    decide
  · intro su rng o s7 h6
    have hstep := coffee_step su rng o s7 6 h6 (by omega)
    exact ⟨by simpa using hstep.1, by simpa using hstep.2.1, hstep.2.2 rfl⟩

/-- Witness for C2: a fresh session has caffeine streak 0, and a state with
caffeine streak 6 triggers the bonus on the next caffeine call. -/
theorem C2_caffeine_overconsumption_on_seventh_witness :
    comboGet (initialize_state 100 0).combo_count "coffee_mission" = 0
    ∧ ((run_calls ((List.range 14).map
          (fun i => ("coffee_mission", (fun _ => (⟨0, 0, 0⟩ : Oracle)) i)))
          (initialize_state 100 0)).map (fun r => r.hidden)
        = [none, none, none, none, none, none, some coffee_overconsumption_msg,
           none, none, none, none, none, none, some coffee_overconsumption_msg])
    ∧ (execute_break_tool "coffee_mission" "" (10, 30) ⟨0, 0, 0⟩
          ⟨100, 0, [], [("coffee_mission", 6)]⟩).hidden
        = some coffee_overconsumption_msg :=
  ⟨by decide,
   (C2_caffeine_overconsumption_on_seventh (initialize_state 100 0)
      (fun _ => ⟨0, 0, 0⟩) (by decide)).1,
   ((C2_caffeine_overconsumption_on_seventh (initialize_state 100 0)
      (fun _ => ⟨0, 0, 0⟩) (by decide)).2 "" (10, 30) ⟨0, 0, 0⟩
      ⟨100, 0, [], [("coffee_mission", 6)]⟩ (by decide)).1⟩

theorem takeLast_append_right {b : List String} (a : List String) {n : Nat}
    (h : n ≤ b.length) : takeLast (a ++ b) n = takeLast b n := by
  unfold takeLast
  rw [List.reverse_append, List.take_append_of_le_length (by simpa using h)]

theorem call_tool_recent (t : String) (o : Oracle) (s : ServerState) :
    (call_tool t o s).state.recent_actions = push_history s.recent_actions t := by
  obtain ⟨su, rng, h⟩ := call_tool_as_execute t o s
  rw [h, execute_recent]

theorem run_final_history : ∀ (cs : List (String × Oracle)) (s : ServerState),
    s.recent_actions.length ≤ 10 →
    (run_final cs s).recent_actions
      = takeLast (s.recent_actions ++ cs.map Prod.fst) 10 := by
  intro cs
  induction cs with
  | nil =>
    intro s h
    rw [run_final, List.map_nil, List.append_nil, takeLast_of_length_le h]
  | cons c rest ih =>
    intro s h
    rw [run_final]
    have hlen : (call_tool c.1 c.2 s).state.recent_actions.length ≤ 10 := by
      rw [call_tool_recent]
      exact push_history_length c.1 h
    rw [ih _ hlen, call_tool_recent, push_eq_takeLast c.1 h, takeLast_takeLast_append]
    congr 1
    simp

/-- C4 counterexample: a session of 11 invocations of the same action keeps
the first-invoked identifier in the history, so "after 11 invocations the
identifier invoked first is absent" is false as stated. -/
theorem C4_first_identifier_can_remain :
    "take_a_break" ∈ (run_final
      (List.replicate 11 ("take_a_break", (⟨0, 0, 0⟩ : Oracle)))
      (initialize_state 100 0)).recent_actions := by
  decide

/-- C4 (amended): the history length never exceeds 10 and eviction is FIFO:
after 11 invocations the history is exactly the identifiers of invocations
2–11 in order, so the first-invoked identifier is absent provided it was not
invoked again among the later 10 invocations. -/
theorem C4_history_bounded_fifo (s : ServerState) (cs : List (String × Oracle))
    (h : s.recent_actions.length ≤ 10) :
    ((run_final cs s).recent_actions.length ≤ 10)
    ∧ (cs.length = 11 →
        (run_final cs s).recent_actions = (cs.map Prod.fst).drop 1
        ∧ (∀ t rest, cs.map Prod.fst = t :: rest → t ∉ rest →
            t ∉ (run_final cs s).recent_actions)) := by
  have hrun := run_final_history cs s h
  constructor
  · rw [hrun, takeLast_length]
    exact Nat.min_le_left _ _
  · intro h11
    have h1 : (run_final cs s).recent_actions = (cs.map Prod.fst).drop 1 := by
      rw [hrun]
      obtain ⟨t, rest, hts⟩ : ∃ t rest, cs.map Prod.fst = t :: rest := by
        cases cs with
        | nil => simp at h11
        | cons c cs' => exact ⟨c.1, cs'.map Prod.fst, rfl⟩
      have hrest : rest.length = 10 := by
        have hl := congrArg List.length hts
        simp at hl
        omega
      rw [hts, takeLast_append_right s.recent_actions (by simp [hrest]),
        takeLast_cons_of_le t (by rw [hrest]), takeLast_of_length_le (by rw [hrest])]
      rfl
    refine ⟨h1, fun t rest hts hnot hmem => ?_⟩
    rw [h1, hts] at hmem
    exact hnot (by simpa using hmem)

/-- Witness for C4: with a distinct first action followed by ten repeats of
another action, after the 11 invocations the first identifier is gone. -/
theorem C4_history_bounded_fifo_witness :
    (initialize_state 100 0).recent_actions.length ≤ 10
    ∧ (("bathroom_break", (⟨0, 0, 0⟩ : Oracle)) ::
        List.replicate 10 ("take_a_break", (⟨0, 0, 0⟩ : Oracle))).length = 11
    ∧ "bathroom_break" ∉ (run_final
        (("bathroom_break", (⟨0, 0, 0⟩ : Oracle)) ::
          List.replicate 10 ("take_a_break", (⟨0, 0, 0⟩ : Oracle)))
        (initialize_state 100 0)).recent_actions :=
  ⟨by decide, by decide,
   ((C4_history_bounded_fifo (initialize_state 100 0)
      (("bathroom_break", (⟨0, 0, 0⟩ : Oracle)) ::
        List.replicate 10 ("take_a_break", (⟨0, 0, 0⟩ : Oracle)))
      (by decide)).2 (by decide)).2 "bathroom_break"
      ((List.replicate 10 ("take_a_break", (⟨0, 0, 0⟩ : Oracle))).map Prod.fst)
      (by decide) (by decide)⟩
